import Mathlib

/-!
# Veghetor: presence probes, dispatcher and polling loop

A shallow embedding of `daemon/Tracker.go`, `daemon/Daemon.go` and
`daemon/Trackers/WhatsApp.go`.

Conventions of the embedding.

* Go strings are Lean `String`s. Every literal the code searches for is ASCII,
  so searching by code point agrees with Go's search by byte on valid UTF-8.
* `time.Time` is an `Int`: seconds counted from the zero instant `time.Time{}`.
* An `error` value is identified with its message.
* A call of a probe either returns its pair or panics. The code has no `recover`, so a panic
  ends the caller as well: `GetStatus` and `GetStatuses` of the dispatcher, and the goroutine
  of the polling loop.
* Everything outside the process (database, browser, clock) is an external
  state `σ` threaded through the calls. Each effectful call also appends an
  `Event` to a trace, so that "which call was made, in which order" can be
  stated.
-/

namespace Veghetor

/-- Instants (`time.Time`), in seconds from the zero instant `time.Time{}`. -/
abbrev Time := Int

/-- An `error` value, identified with its message. -/
abbrev GoError := String

/-- The Go pair `(time.Time, error)` a status query returns; `none` is the `nil` error. -/
abbrev StatusResult := Time × Option GoError

/-- The zero instant `time.Time{}`. -/
def zeroTime : Time := 0

/-- The result of a `GetStatus` call of a probe: the returned pair, or a run-time panic (the
calls `Must...` of the browser library and an index out of range end a call this way). -/
inductive ProbeOutcome where
  | returned (r : StatusResult)
  | panic (msg : String)
deriving DecidableEq, Repr

/-- The type `Person` of `Tracker.go`. -/
structure Person where
  User : String
  Place : String
deriving DecidableEq, Repr

/-- The type `ArchiveEntry` of `ArchiveEntry.go`. -/
structure ArchiveEntry where
  ID : Int
  Timestamp : Time
  Place : String
  User : String
deriving DecidableEq, Repr

/-- The type `Config` of `Config.go`. -/
structure Config where
  DatabaseType : String
  DatabasePath : String
  ListenPath : String
  UpdateInterval : Int
  InitialLaunch : Bool
deriving DecidableEq, Repr

/-- Observable effects, in the order in which the code performs them. -/
inductive Event where
  /-- The probe at position `idx` of the registry had `GetStatus(user)` called and ended in `res`. -/
  | probeStatus (idx : Nat) (user : String) (res : ProbeOutcome)
  /-- The query `SELECT user, place FROM people` was run; `failed` is its error, if any. -/
  | queryPeople (failed : Option GoError)
  /-- The statement `INSERT INTO archive (timestamp, place, user)` was run with these arguments. -/
  | insertArchive (timestamp : Time) (place user : String) (failed : Option GoError)
  /-- The call `time.Sleep(d)` with `d` in nanoseconds. -/
  | sleep (ns : Int)
  /-- The logger call `Logger.Error().Err(err).Msg(msg)`. -/
  | logError (err : GoError) (msg : String)
  /-- The logger call `Logger.Info()...Msg("Got status")` with its three fields. -/
  | logStatus (user place : String) (status : Time)
deriving DecidableEq, Repr

/-- The external state together with the trace of effects so far. -/
structure World (σ : Type) where
  ext : σ
  trace : List Event

/-- Appends one event to the trace. -/
def World.emit {σ : Type} (w : World σ) (e : Event) : World σ :=
  { w with trace := w.trace ++ [e] }

/-- The `Tracker` interface: `Name()` and `GetStatus(user)`. `GetStatus` may read and change
the external state, and it either returns its pair or panics. (The session bootstrap method of
the interface is not modelled.) -/
structure Tracker (σ : Type) where
  Name : String
  GetStatus : String → σ → ProbeOutcome × σ

/-- One call `tracker.GetStatus(user)` on the probe at position `idx`, recorded in the trace. -/
def Tracker.call {σ : Type} (t : Tracker σ) (idx : Nat) (user : String) (w : World σ) :
    ProbeOutcome × World σ :=
  let r := t.GetStatus user w.ext
  (r.1, { ext := r.2, trace := w.trace ++ [Event.probeStatus idx user r.1] })

/-- The calls on `*sql.DB` that the polling loop makes. Each may fail and may change the
external state. -/
structure Database (σ : Type) where
  /-- The query `SELECT user, place FROM people` with the scan of its rows. -/
  queryPeople : σ → Except GoError (List Person) × σ
  /-- The statement `INSERT INTO archive (timestamp, place, user) VALUES (?, ?, ?)`. -/
  execInsertArchive : Time → String → String → σ → Option GoError × σ
  /-- The query `SELECT last_insert_rowid()` with its scan. -/
  lastInsertRowid : σ → Except GoError Int × σ
  /-- The query `SELECT * FROM archive WHERE id = ?` with its scan. -/
  selectArchiveById : Int → σ → Except GoError ArchiveEntry × σ

/-- The type `TrackerMaster` of `Tracker.go`. -/
structure TrackerMaster (σ : Type) where
  Trackers : List (Tracker σ)
  DBConn : Database σ

/-- The `for _, tracker := range tm.Trackers` loop of `GetStatus`, from position `idx` on. The
result of the probe is passed on as it is; a panic of the probe is the panic of the call. -/
def TrackerMaster.getStatusFrom {σ : Type} (name place : String) :
    List (Tracker σ) → Nat → World σ → ProbeOutcome × World σ
  | [], _, w => (ProbeOutcome.returned (zeroTime, some ("Tracker not found: " ++ place)), w)
  | t :: rest, idx, w =>
    if t.Name = place then t.call idx name w
    else TrackerMaster.getStatusFrom name place rest (idx + 1) w

/-- The method `TrackerMaster.GetStatus(name, place)`. -/
def TrackerMaster.GetStatus {σ : Type} (tm : TrackerMaster σ) (name place : String)
    (w : World σ) : ProbeOutcome × World σ :=
  TrackerMaster.getStatusFrom name place tm.Trackers 0 w

/-- Go's `map[string]time.Time`, as the list of assignments made, newest first. -/
abbrev StatusMap := List (String × Time)

/-- The map read `m[key]`. -/
def StatusMap.get? (m : StatusMap) (key : String) : Option Time :=
  (m.find? (fun kv => kv.1 = key)).map (fun kv => kv.2)

/-- The map write `m[key] = v`. -/
def StatusMap.set (m : StatusMap) (key : String) (v : Time) : StatusMap :=
  (key, v) :: m

/-- The Go pair `(map[string]time.Time, error)`; the first `none` is the `nil` map. -/
abbrev StatusesResult := Option StatusMap × Option GoError

/-- The result of a `GetStatuses` call: the returned pair, or the panic of a probe. -/
inductive StatusesOutcome where
  | returned (r : StatusesResult)
  | panic (msg : String)
deriving DecidableEq, Repr

/-- The `for _, tracker := range tm.Trackers` loop of `GetStatuses`, from position `idx` on. -/
def TrackerMaster.getStatusesFrom {σ : Type} (user : String) :
    List (Tracker σ) → Nat → StatusMap → World σ → StatusesOutcome × World σ
  | [], _, statuses, w => (StatusesOutcome.returned (some statuses, none), w)
  | t :: rest, idx, statuses, w =>
    match t.call idx user w with
    | (ProbeOutcome.panic msg, w1) => (StatusesOutcome.panic msg, w1)
    | (ProbeOutcome.returned (_, some err), w1) =>
      (StatusesOutcome.returned (none, some err), w1)
    | (ProbeOutcome.returned (status, none), w1) =>
      TrackerMaster.getStatusesFrom user rest (idx + 1) (statuses.set t.Name status) w1

/-- The method `TrackerMaster.GetStatuses(user)`. -/
def TrackerMaster.GetStatuses {σ : Type} (tm : TrackerMaster σ) (user : String)
    (w : World σ) : StatusesOutcome × World σ :=
  TrackerMaster.getStatusesFrom user tm.Trackers 0 [] w

/-- The method `TrackerMaster.QueryTrackedPeople()`: the query and the scan of its rows either give the
list of people or fail; `(nil, err)` is `Except.error err`. -/
def TrackerMaster.QueryTrackedPeople {σ : Type} (tm : TrackerMaster σ) (w : World σ) :
    Except GoError (List Person) × World σ :=
  match tm.DBConn.queryPeople w.ext with
  | (Except.error err, s) =>
    (Except.error err, { ext := s, trace := w.trace ++ [Event.queryPeople (some err)] })
  | (Except.ok people, s) =>
    (Except.ok people, { ext := s, trace := w.trace ++ [Event.queryPeople none] })

/-! ## `Daemon.go`: the polling and archival loop -/

/-- The type `Daemon` of `Daemon.go`; the logger is the trace. -/
structure Daemon (σ : Type) where
  Config : Config
  DBConn : Database σ
  TrackerMaster : TrackerMaster σ
  Running : Bool

/-- The Go pair `(*ArchiveEntry, error)`. -/
abbrev ArchiveResult := Option ArchiveEntry × Option GoError

/-- The method `Daemon.InsertIntoArchiveWithTimestamp(entry)`. -/
def Daemon.InsertIntoArchiveWithTimestamp {σ : Type} (d : Daemon σ) (entry : ArchiveEntry)
    (w : World σ) : ArchiveResult × World σ :=
  match d.DBConn.execInsertArchive entry.Timestamp entry.Place entry.User w.ext with
  | (some err, s1) =>
    ((none, some err),
      { ext := s1
        trace := w.trace ++ [Event.insertArchive entry.Timestamp entry.Place entry.User (some err),
                             Event.logError err "Failed to insert into archive"] })
  | (none, s1) =>
    let w1 : World σ :=
      { ext := s1
        trace := w.trace ++ [Event.insertArchive entry.Timestamp entry.Place entry.User none] }
    match d.DBConn.lastInsertRowid w1.ext with
    | (Except.error err, s2) =>
      ((none, some err),
        { ext := s2, trace := w1.trace ++ [Event.logError err "Failed to get last insert ID"] })
    | (Except.ok id, s2) =>
      match d.DBConn.selectArchiveById id s2 with
      | (Except.error err, s3) =>
        ((none, some err),
          { ext := s3, trace := w1.trace ++ [Event.logError err "Failed to get entry by ID"] })
      | (Except.ok row, s3) => ((some row, none), { ext := s3, trace := w1.trace })

/-- The goroutine of `Daemon.Start` at some point of its run: the world it has reached, and the
panic that ended it, if any. The goroutine has no `recover`, so a panic ends it (and with it
the process) where it is raised. -/
structure Run (σ : Type) where
  world : World σ
  panic : Option String

/-- The body of `for _, person := range people` in `Daemon.Start`: one subject. -/
def Daemon.pollOne {σ : Type} (d : Daemon σ) (person : Person) (w : World σ) : Run σ :=
  match d.TrackerMaster.GetStatus person.User person.Place w with
  | (ProbeOutcome.panic msg, w1) => { world := w1, panic := some msg }
  | (ProbeOutcome.returned (_, some err), w1) =>
    { world := w1.emit (Event.logError err "Failed to get status"), panic := none }
  | (ProbeOutcome.returned (status, none), w1) =>
    let w2 := w1.emit (Event.logStatus person.User person.Place status)
    let entry : ArchiveEntry :=
      { ID := 0, Timestamp := status, Place := person.Place, User := person.User }
    match d.InsertIntoArchiveWithTimestamp entry w2 with
    | ((_, some err), w3) =>
      { world := w3.emit (Event.logError err "Failed to insert into archive"), panic := none }
    | ((_, none), w3) => { world := w3, panic := none }

/-- The loop `for _, person := range people` in `Daemon.Start`. -/
def Daemon.pollPeople {σ : Type} (d : Daemon σ) : List Person → World σ → Run σ
  | [], w => { world := w, panic := none }
  | person :: rest, w =>
    match d.pollOne person w with
    | { world := w1, panic := some msg } => { world := w1, panic := some msg }
    | { world := w1, panic := none } => Daemon.pollPeople d rest w1

/-- Two's-complement wrap-around of a 64-bit signed product. -/
def wrapInt64 (x : Int) : Int :=
  (x + 9223372036854775808) % 18446744073709551616 - 9223372036854775808

/-- The argument of `time.Sleep`: `time.Duration(UpdateInterval) * time.Second`, nanoseconds. -/
def Daemon.sleepDuration {σ : Type} (d : Daemon σ) : Int :=
  wrapInt64 (d.Config.UpdateInterval * 1000000000)

/-- The loop `for daemon.Running { ... }` of the goroutine in `Daemon.Start`, run for at most
`fuel` iterations (the loop itself has no bound). -/
def Daemon.pollLoop {σ : Type} (d : Daemon σ) : Nat → World σ → Run σ
  | 0, w => { world := w, panic := none }
  | fuel + 1, w =>
    if d.Running then
      match d.TrackerMaster.QueryTrackedPeople w with
      | (Except.error err, w1) =>
        Daemon.pollLoop d fuel (w1.emit (Event.logError err "Failed to query tracked people"))
      | (Except.ok people, w1) =>
        match d.pollPeople people w1 with
        | { world := w2, panic := some msg } => { world := w2, panic := some msg }
        | { world := w2, panic := none } =>
          Daemon.pollLoop d fuel (w2.emit (Event.sleep d.sleepDuration))
    else { world := w, panic := none }

/-! ## The parts of Go's `strings` package that the probe uses -/

/-- Whether `sub` occurs in the character sequence as a contiguous block. -/
def strings.containsChars : List Char → List Char → Bool
  | [], sub => sub.isEmpty
  | c :: cs, sub => sub.isPrefixOf (c :: cs) || strings.containsChars cs sub

/-- The function `strings.Contains(s, substr)`. -/
def strings.Contains (s substr : String) : Bool :=
  strings.containsChars s.toList substr.toList

/-- The function `strings.Trim(s, cutset)`: `s` without the leading and trailing characters that are in
`cutset`. -/
def strings.Trim (s cutset : String) : String :=
  String.mk
    (((s.toList.dropWhile (fun c => cutset.toList.contains c)).reverse.dropWhile
      (fun c => cutset.toList.contains c)).reverse)

/-- The function `strings.ToLower(s)` on ASCII text: the letters `A` to `Z` are mapped to `a` to `z`. (Go
also lowers letters outside ASCII; those are left as they are here.) -/
def strings.ToLower (s : String) : String :=
  String.mk (s.toList.map Char.toLower)

/-- A `*strings.Replacer`: the pairs (old, new) in argument order. -/
abbrev strings.Replacer := List (String × String)

/-- The function `strings.NewReplacer(oldnew...)`: consecutive arguments are paired. (Go panics on an odd
number of arguments; a trailing unpaired argument is dropped here.) -/
def strings.NewReplacer : List String → strings.Replacer
  | old :: new :: rest => (old, new) :: strings.NewReplacer rest
  | _ => []

/-- The replacement that applies at the head of `s`: the first pair in argument order whose old
string is a prefix of `s`. -/
def strings.Replacer.lookup (pairs : List (List Char × List Char)) (s : List Char) :
    Option (List Char × List Char) :=
  pairs.find? (fun p => p.1.isPrefixOf s)

/-- The scan of the generic replacer over the text, left to right. `skip` counts the characters
still covered by the last match. At a free position the pair found by `lookup` is applied and its
old string skipped; without a match one character is copied. All old strings are taken to be
non-empty. -/
def strings.Replacer.replaceChars (pairs : List (List Char × List Char)) :
    List Char → Nat → List Char
  | [], _ => []
  | _ :: cs, skip + 1 => strings.Replacer.replaceChars pairs cs skip
  | c :: cs, 0 =>
    match strings.Replacer.lookup pairs (c :: cs) with
    | some (old, new) => new ++ strings.Replacer.replaceChars pairs cs (old.length - 1)
    | none => c :: strings.Replacer.replaceChars pairs cs 0

/-- The method `(*strings.Replacer).Replace(s)`. -/
def strings.Replacer.Replace (r : strings.Replacer) (s : String) : String :=
  String.mk (strings.Replacer.replaceChars (r.map (fun p => (p.1.toList, p.2.toList))) s.toList 0)

/-! ## `Trackers/WhatsApp.go`: the reference probe -/

/-- A list item of the page as the probe sees it: its identity and its `style` attribute, `none`
when the attribute is absent (`MustAttribute` returns `nil`). -/
structure Element where
  id : Nat
  style : Option String
deriving DecidableEq, Repr

/-- What the selection step ends in: the element to click, the returned error, or a run-time
panic. -/
inductive Selection where
  | found (e : Element)
  | failed (err : GoError)
  | panic (msg : String)
deriving DecidableEq, Repr

/-- The loop `for _, element := range elements` of `GetStatus`; `best` is
`element_with_smallest_translationY`. -/
def WhatsAppTracker.scanElements : List Element → Element → Element
  | [], best => best
  | element :: rest, best =>
    match element.style with
    | none => WhatsAppTracker.scanElements rest best
    | some style_attrib =>
      if strings.Contains style_attrib "Y(72px)" then element
      else WhatsAppTracker.scanElements rest best

/-- The selection step of `GetStatus` (the lines from `MustElements` to `MustClick`) on the list
of elements found. -/
def WhatsAppTracker.selectElement (elements : List Element) : Selection :=
  if elements.length = 1 then Selection.failed "User list not found"
  else
    match elements with
    | [] => Selection.panic "runtime error: index out of range [0] with length 0"
    | first :: _ => Selection.found (WhatsAppTracker.scanElements elements first)

/-- The replacer built in `GetStatus`, with the arguments in the order of the source. -/
def WhatsAppTracker.replacer : strings.Replacer :=
  strings.NewReplacer [
    "ultima accesare: ", "",
    "azi", "today",
    "ieri", "yesterday",
    "acum", "now",
    "la", "at",
    "luni", "monday",
    "marti", "tuesday",
    "miercuri", "wednesday",
    "joi", "thursday",
    "vineri", "friday",
    "sambata", "saturday",
    "duminica", "sunday",
    "ianuarie", "january",
    "februarie", "february",
    "martie", "march",
    "aprilie", "april",
    "mai", "may",
    "iunie", "june",
    "iulie", "july",
    "septembrie", "september",
    "octombrie", "october",
    "noiembrie", "november",
    "decembrie", "december",
    " p.m.", "pm",
    " a.m.", "am",
    "p.m.", "pm",
    "a.m.", "am"]

/-- The classification step of `GetStatus` (from reading the header's `title` to the end) on the
title read. `parse` stands for `anytime.Parse` of the library `github.com/ijt/go-anytime`, which
is not part of the repository, and `now` for the value of `time.Now()`. The value computed by
`strings.ToLower(strings.Trim(...))` is not assigned in the source, so `status` stays the title
as read. -/
def WhatsAppTracker.classifyStatus (parse : String → Time → StatusResult) (now : Time)
    (title : String) : StatusResult :=
  let status := title
  let _discarded := strings.ToLower (strings.Trim status " \t\n\r")
  if strings.Contains status "conectat" || strings.Contains status "scrie" then
    (now, none)
  else if strings.Contains status "ultima" then
    let status := WhatsAppTracker.replacer.Replace status
    match parse status now with
    | (time, some err) => (time, some err)
    | (time, none) => (time, none)
  else
    (zeroTime, some "Status not found")

/-- The page as the probe drives it: the list items found after typing the user into the search
bar, and the header's `title` read after clicking an item. -/
structure Page where
  elements : String → List Element
  title : Element → String

/-- The method `WhatsAppTracker.GetStatus(user)`: selection, click, classification. -/
def WhatsAppTracker.GetStatus (page : Page) (parse : String → Time → StatusResult) (now : Time)
    (user : String) : ProbeOutcome :=
  match WhatsAppTracker.selectElement (page.elements user) with
  | Selection.failed err => ProbeOutcome.returned (zeroTime, some err)
  | Selection.panic msg => ProbeOutcome.panic msg
  | Selection.found element =>
    ProbeOutcome.returned (WhatsAppTracker.classifyStatus parse now (page.title element))

/-! ## Words of the specification -/

/-- An item carries the first-slot marker when it has a `style` attribute that contains
`Y(72px)`. -/
def carriesMarker (e : Element) : Bool :=
  match e.style with
  | some style => strings.Contains style "Y(72px)"
  | none => false

/-- Modelled from the spec: "`T0` shifted to the previous calendar day at" the given time of
day. Calendar days are the 86400-second days counted from the zero instant. The repository has
no calendar code of its own; the computation belongs to the parsing library. -/
def previousDayAt (T0 : Time) (hour minute : Int) : Time :=
  (T0 / 86400 - 1) * 86400 + hour * 3600 + minute * 60

/-- Modelled from the spec: a relative-time parser that knows the one phrase
`yesterday at 3:00pm` and rejects every other text. It stands in for `anytime.Parse`, which is
not part of the repository. -/
def parseOnePhrase (s : String) (T0 : Time) : StatusResult :=
  if s = "yesterday at 3:00pm" then (previousDayAt T0 15 0, none)
  else (zeroTime, some "could not parse")

/-! ## Observations on traces -/

/-- The message of the first panic in a list of outcomes. -/
def firstPanic : List ProbeOutcome → Option String
  | [] => none
  | ProbeOutcome.panic msg :: _ => some msg
  | ProbeOutcome.returned _ :: rest => firstPanic rest

/-- The outcomes that stand before the first panic. -/
def beforePanic : List ProbeOutcome → List ProbeOutcome
  | [] => []
  | ProbeOutcome.panic _ :: _ => []
  | ProbeOutcome.returned r :: rest => ProbeOutcome.returned r :: beforePanic rest

/-- The outcome of each probe's own `GetStatus(user)` when the probes are called one after the
other in registration order, each in the state the one before left. -/
def probeResults {σ : Type} (user : String) : List (Tracker σ) → σ → List ProbeOutcome
  | [], _ => []
  | t :: rest, s => (t.GetStatus user s).1 :: probeResults user rest (t.GetStatus user s).2

/-- The external state after the probes were called one after the other in registration
order. -/
def probeState {σ : Type} (user : String) : List (Tracker σ) → σ → σ
  | [], s => s
  | t :: rest, s => probeState user rest (t.GetStatus user s).2

/-- A successful result of a probe. -/
def succeeded (t : Time) : ProbeOutcome := ProbeOutcome.returned (t, none)

/-- What `GetStatuses` ends in when it stops at a probe whose outcome is `r` (not a success):
the nil map with the probe's error, or the probe's panic. -/
def stoppedAt : ProbeOutcome → StatusesOutcome
  | ProbeOutcome.panic msg => StatusesOutcome.panic msg
  | ProbeOutcome.returned (_, err) => StatusesOutcome.returned (none, err)

/-- The fetches and sleeps of a trace, in order: `true` for a run of the people query, `false`
for a call of `time.Sleep`. -/
def fetchesAndSleeps : List Event → List Bool
  | [] => []
  | Event.queryPeople _ :: rest => true :: fetchesAndSleeps rest
  | Event.sleep _ :: rest => false :: fetchesAndSleeps rest
  | _ :: rest => fetchesAndSleeps rest

/-! ## Fixtures: small concrete systems on which the theorems are exercised -/

/-- A probe over a counter state: it answers `base + state` and increments the state. -/
def counterProbe (name : String) (base : Int) : Tracker Nat :=
  { Name := name, GetStatus := fun _ s => (ProbeOutcome.returned (base + s, none), s + 1) }

/-- A probe over a counter state that fails for the user `"bob"` and answers `base` otherwise. -/
def pickyProbe (name : String) (base : Int) : Tracker Nat :=
  { Name := name
    GetStatus := fun user s =>
      if user = "bob" then (ProbeOutcome.returned (zeroTime, some "Status not found"), s + 1)
      else (ProbeOutcome.returned (base, none), s + 1) }

/-- A database over a counter state: the people query gives three subjects, an insert fails
for the user `"ana"` and succeeds otherwise, and the row read back carries the counter as id. -/
def demoDatabase : Database Nat :=
  { queryPeople := fun s =>
      (Except.ok [⟨"ana", "whatsapp"⟩, ⟨"bob", "telegram"⟩, ⟨"cy", "signal"⟩], s)
    execInsertArchive := fun _ _ user s =>
      if user = "ana" then (some "database is locked", s) else (none, s + 1)
    lastInsertRowid := fun s => (Except.ok (Int.ofNat s), s)
    selectArchiveById := fun id s => (Except.ok ⟨id, 0, "", ""⟩, s) }

/-- A database whose people query always fails. -/
def brokenDatabase : Database Nat :=
  { demoDatabase with queryPeople := fun s => (Except.error "database is locked", s) }

/-- A registry of three probes with distinct names. -/
def demoRegistry : TrackerMaster Nat :=
  { Trackers := [counterProbe "whatsapp" 100, pickyProbe "telegram" 200, counterProbe "signal" 300]
    DBConn := demoDatabase }

/-- The default configuration of `Config.go`. -/
def defaultConfig : Config :=
  { DatabaseType := "sqlite3", DatabasePath := "./veghetor.db", ListenPath := ":8080"
    UpdateInterval := 1800, InitialLaunch := false }

/-- A running daemon over the demo registry and database. -/
def demoDaemon : Daemon Nat :=
  { Config := defaultConfig, DBConn := demoDatabase, TrackerMaster := demoRegistry, Running := true }

/-- A running daemon whose people query always fails. -/
def brokenDaemon : Daemon Nat :=
  { Config := defaultConfig, DBConn := brokenDatabase
    TrackerMaster := { demoRegistry with DBConn := brokenDatabase }, Running := true }

/-- The initial world: counter at `5`, no effect yet. -/
def demoWorld : World Nat := { ext := 5, trace := [] }

/-- A page that shows no list item at all, whatever the user searched for. -/
def emptyPage : Page :=
  { elements := fun _ => [], title := fun _ => "" }

/-! # Theorems -/

/-! ## Dispatcher: lookup by name -/

/-- When no probe before position `i` is named like the probe at `i`, the lookup loop calls
exactly that probe. -/
theorem getStatusFrom_at {σ : Type} (u : String) :
    ∀ (ts : List (Tracker σ)) (base i : Nat) (h : i < ts.length) (w : World σ),
      (∀ j (hj : j < ts.length), j < i → (ts.get ⟨j, hj⟩).Name ≠ (ts.get ⟨i, h⟩).Name) →
      TrackerMaster.getStatusFrom u (ts.get ⟨i, h⟩).Name ts base w
        = (ts.get ⟨i, h⟩).call (base + i) u w := by
  intro ts
  induction ts with
  | nil => intro base i h; simp at h
  | cons t rest ih =>
    intro base i h w hne
    cases i with
    | zero => simp [TrackerMaster.getStatusFrom]
    | succ k =>
      have hk : k < rest.length := by simpa using h
      have h0 : t.Name ≠ (rest.get ⟨k, hk⟩).Name := by
        have := hne 0 (by simp) (by omega)
        simpa using this
      have hrest : ∀ j (hj : j < rest.length), j < k →
          (rest.get ⟨j, hj⟩).Name ≠ (rest.get ⟨k, hk⟩).Name := by
        intro j hj hjk
        have := hne (j + 1) (by simpa using hj) (by omega)
        simpa using this
      have := ih (base + 1) k hk w hrest
      simp only [List.get_cons_succ, TrackerMaster.getStatusFrom, if_neg h0]
      rw [this]
      congr 1
      omega

/-- When no probe carries the requested name, the lookup loop falls through. -/
theorem getStatusFrom_none {σ : Type} (u source : String) :
    ∀ (ts : List (Tracker σ)) (base : Nat) (w : World σ),
      (∀ t ∈ ts, t.Name ≠ source) →
      TrackerMaster.getStatusFrom u source ts base w
        = (ProbeOutcome.returned (zeroTime, some ("Tracker not found: " ++ source)), w) := by
  intro ts
  induction ts with
  | nil => intro base w _; rfl
  | cons t rest ih =>
    intro base w hne
    have h0 : t.Name ≠ source := hne t (by simp)
    simp only [TrackerMaster.getStatusFrom, if_neg h0]
    exact ih (base + 1) w (fun t ht => hne t (by simp [ht]))

/-- C1: in a registry whose probes have pairwise distinct names, `GetStatus(u, n)` for the name
`n` of the probe at position `i` returns the pair (timestamp, error) of that probe's
`GetStatus(u)` unchanged, leaves the external state as that call left it, and adds to the trace
exactly one probe call, the one on position `i`: no other probe is called. -/
theorem GetStatus_calls_exactly_the_named_probe {σ : Type} (tm : TrackerMaster σ)
    (hdistinct : (tm.Trackers.map Tracker.Name).Nodup)
    (i : Nat) (h : i < tm.Trackers.length) (u : String) (w : World σ) :
    (tm.GetStatus u (tm.Trackers.get ⟨i, h⟩).Name w).1
        = ((tm.Trackers.get ⟨i, h⟩).GetStatus u w.ext).1 ∧
    (tm.GetStatus u (tm.Trackers.get ⟨i, h⟩).Name w).2.ext
        = ((tm.Trackers.get ⟨i, h⟩).GetStatus u w.ext).2 ∧
    (tm.GetStatus u (tm.Trackers.get ⟨i, h⟩).Name w).2.trace
        = w.trace ++ [Event.probeStatus i u ((tm.Trackers.get ⟨i, h⟩).GetStatus u w.ext).1] := by
  have hne : ∀ j (hj : j < tm.Trackers.length), j < i →
      (tm.Trackers.get ⟨j, hj⟩).Name ≠ (tm.Trackers.get ⟨i, h⟩).Name := by
    intro j hj hji heq
    have hinj := (List.nodup_iff_injective_get.mp hdistinct)
    have hj2 : j < (tm.Trackers.map Tracker.Name).length := by simpa using hj
    have hi2 : i < (tm.Trackers.map Tracker.Name).length := by simpa using h
    have : (⟨j, hj2⟩ : Fin (tm.Trackers.map Tracker.Name).length) = ⟨i, hi2⟩ := by
      apply hinj
      simpa using heq
    have : j = i := by simpa using this
    omega
  have key := getStatusFrom_at u tm.Trackers 0 i h w hne
  simp only [Nat.zero_add] at key
  unfold TrackerMaster.GetStatus
  rw [key]
  simp [Tracker.call]

/-- Witness of C1 on the demo registry: asking for `"telegram"` calls the probe at position 1
only. -/
theorem GetStatus_calls_exactly_the_named_probe_witness :
    (demoRegistry.Trackers.map Tracker.Name).Nodup ∧
    (demoRegistry.GetStatus "ana" "telegram" demoWorld).1 = ProbeOutcome.returned (200, none) ∧
    (demoRegistry.GetStatus "ana" "telegram" demoWorld).2.ext = 6 ∧
    (demoRegistry.GetStatus "ana" "telegram" demoWorld).2.trace
      = [Event.probeStatus 1 "ana" (ProbeOutcome.returned (200, none))] :=
  ⟨by decide,
   GetStatus_calls_exactly_the_named_probe demoRegistry (by decide) 1 (by decide) "ana" demoWorld⟩

/-- C2: when no registered probe reports the name `source`, `GetStatus(u, source)` returns the
zero instant with the error `"Tracker not found: <source>"`, whatever the user `u`; the world is
unchanged, so no probe was called. -/
theorem GetStatus_unknown_source_not_found {σ : Type} (tm : TrackerMaster σ) (source : String)
    (hunknown : ∀ t ∈ tm.Trackers, t.Name ≠ source) (u : String) (w : World σ) :
    tm.GetStatus u source w
      = (ProbeOutcome.returned (zeroTime, some ("Tracker not found: " ++ source)), w) :=
  getStatusFrom_none u source tm.Trackers 0 w hunknown

/-- Witness of C2 on the demo registry with the unregistered name `"unknown-source"`. -/
theorem GetStatus_unknown_source_not_found_witness :
    (∀ t ∈ demoRegistry.Trackers, t.Name ≠ "unknown-source") ∧
    demoRegistry.GetStatus "ana" "unknown-source" demoWorld
      = (ProbeOutcome.returned (0, some "Tracker not found: unknown-source"), demoWorld) :=
  ⟨by simp [demoRegistry, counterProbe, pickyProbe],
   GetStatus_unknown_source_not_found demoRegistry "unknown-source"
     (by simp [demoRegistry, counterProbe, pickyProbe]) "ana" demoWorld⟩

/-! ## Dispatcher: snapshot over all probes -/

/-- The loop of `GetStatuses` stops at the first probe whose own outcome is not a success: the
probes before it were called in order, it was called, and no later one is. -/
theorem getStatusesFrom_stops {σ : Type} (u : String) :
    ∀ (ts : List (Tracker σ)) (base : Nat) (m0 : StatusMap) (w : World σ)
      (times : List Time) (r : ProbeOutcome) (post : List ProbeOutcome),
      probeResults u ts w.ext = times.map succeeded ++ r :: post →
      (∀ t, r ≠ succeeded t) →
      (TrackerMaster.getStatusesFrom u ts base m0 w).1 = stoppedAt r ∧
      (TrackerMaster.getStatusesFrom u ts base m0 w).2.trace
        = w.trace ++ ((times.map succeeded ++ [r]).enumFrom base).map
            (fun p => Event.probeStatus p.1 u p.2) ∧
      (TrackerMaster.getStatusesFrom u ts base m0 w).2.ext
        = probeState u (ts.take (times.length + 1)) w.ext := by
  intro ts
  induction ts with
  | nil =>
    intro base m0 w times r post h
    simp [probeResults] at h
  | cons t rest ih =>
    intro base m0 w times r post h hr
    rcases hcall : t.GetStatus u w.ext with ⟨o, s1⟩
    simp only [probeResults, hcall] at h
    cases times with
    | nil =>
      simp only [List.map_nil, List.nil_append, List.cons.injEq] at h
      obtain ⟨ho, _⟩ := h
      subst ho
      cases o with
      | panic msg =>
        simp [TrackerMaster.getStatusesFrom, Tracker.call, hcall, stoppedAt, probeState]
      | returned pr =>
        rcases pr with ⟨x, e⟩
        cases e with
        | none => exact absurd rfl (hr x)
        | some err =>
          simp [TrackerMaster.getStatusesFrom, Tracker.call, hcall, stoppedAt, probeState]
    | cons t0 times1 =>
      simp only [List.map_cons, List.cons_append, List.cons.injEq] at h
      obtain ⟨ho, hrest⟩ := h
      subst ho
      have := ih (base + 1) (StatusMap.set m0 t.Name t0)
        { ext := s1, trace := w.trace ++ [Event.probeStatus base u (succeeded t0)] }
        times1 r post hrest hr
      obtain ⟨h1, h2, h3⟩ := this
      refine ⟨?_, ?_, ?_⟩
      · simpa [TrackerMaster.getStatusesFrom, Tracker.call, hcall, succeeded] using h1
      · simp only [TrackerMaster.getStatusesFrom, Tracker.call, hcall, succeeded] at h2 ⊢
        rw [h2]
        simp [List.enumFrom_cons, succeeded]
      · simp only [TrackerMaster.getStatusesFrom, Tracker.call, hcall, succeeded] at h3 ⊢
        rw [h3]
        simp [probeState, hcall]

/-- When every probe's own outcome is a success, the loop of `GetStatuses` calls all of them in
order and assigns each name its timestamp. -/
theorem getStatusesFrom_all {σ : Type} (u : String) :
    ∀ (ts : List (Tracker σ)) (base : Nat) (m0 : StatusMap) (w : World σ) (times : List Time),
      probeResults u ts w.ext = times.map succeeded →
      (TrackerMaster.getStatusesFrom u ts base m0 w).1
        = StatusesOutcome.returned
            (some ((List.zip (ts.map Tracker.Name) times).reverse ++ m0), none) ∧
      (TrackerMaster.getStatusesFrom u ts base m0 w).2.trace
        = w.trace ++ ((times.map succeeded).enumFrom base).map
            (fun p => Event.probeStatus p.1 u p.2) ∧
      (TrackerMaster.getStatusesFrom u ts base m0 w).2.ext = probeState u ts w.ext := by
  intro ts
  induction ts with
  | nil =>
    intro base m0 w times h
    cases times with
    | nil => simp [TrackerMaster.getStatusesFrom, probeState]
    | cons t0 times1 => simp [probeResults] at h
  | cons t rest ih =>
    intro base m0 w times h
    rcases hcall : t.GetStatus u w.ext with ⟨o, s1⟩
    simp only [probeResults, hcall] at h
    cases times with
    | nil => simp at h
    | cons t0 times1 =>
      simp only [List.map_cons, List.cons.injEq] at h
      obtain ⟨ho, hrest⟩ := h
      subst ho
      obtain ⟨h1, h2, h3⟩ := ih (base + 1) (StatusMap.set m0 t.Name t0)
        { ext := s1, trace := w.trace ++ [Event.probeStatus base u (succeeded t0)] }
        times1 hrest
      refine ⟨?_, ?_, ?_⟩
      · simp only [TrackerMaster.getStatusesFrom, Tracker.call, hcall, succeeded] at h1 ⊢
        rw [h1]
        simp [StatusMap.set]
      · simp only [TrackerMaster.getStatusesFrom, Tracker.call, hcall, succeeded] at h2 ⊢
        rw [h2]
        simp [List.enumFrom_cons, succeeded]
      · simp only [TrackerMaster.getStatusesFrom, Tracker.call, hcall, succeeded] at h3 ⊢
        rw [h3]
        simp [probeState, hcall]

/-- Reading a map built by assigning `names[j] ↦ vals[j]` for `j = 0, 1, ...` in order: a key
that is not assigned again later holds the value assigned at `j`. -/
theorem StatusMap_get_of_assignments :
    ∀ (names : List String) (vals : List Time) (j : Nat) (hj : j < names.length)
      (hv : j < vals.length),
      (∀ k (hk : k < names.length), j < k → names.get ⟨k, hk⟩ ≠ names.get ⟨j, hj⟩) →
      StatusMap.get? (List.zip names vals).reverse (names.get ⟨j, hj⟩) = some (vals.get ⟨j, hv⟩) := by
  intro names
  induction names with
  | nil => intro vals j hj; simp at hj
  | cons n ns ih =>
    intro vals j hj hv hlater
    cases vals with
    | nil => simp at hv
    | cons v vs =>
      cases j with
      | zero =>
        have hnone : List.find? (fun kv => decide (kv.1 = n)) (List.zip ns vs).reverse = none := by
          rw [List.find?_eq_none]
          intro kv hkv
          have hmem : kv.1 ∈ ns := (List.of_mem_zip (a := kv.1) (b := kv.2)
            (by simpa using hkv)).1
          obtain ⟨k, hk, hkeq⟩ := List.getElem_of_mem hmem
          have := hlater (k + 1) (by simpa using hk) (by omega)
          simp only [List.get_eq_getElem, List.getElem_cons_succ, List.getElem_cons_zero] at this
          simpa [hkeq] using this
        simp [StatusMap.get?, List.find?_append, hnone]
      | succ k =>
        have hk : k < ns.length := by simpa using hj
        have hkv : k < vs.length := by simpa using hv
        have := ih vs k hk hkv (by
          intro k2 hk2 hlt
          have := hlater (k2 + 1) (by simpa using hk2) (by omega)
          simpa using this)
        simp only [StatusMap.get?, List.get_eq_getElem] at this
        simp only [StatusMap.get?, List.zip_cons_cons, List.reverse_cons, List.find?_append,
          List.get_eq_getElem, List.getElem_cons_succ]
        cases hf : List.find? (fun kv => decide (kv.1 = ns[k])) (List.zip ns vs).reverse with
        | none => simp [hf] at this
        | some kv => simpa [hf] using this

/-- Reading a map built by assigning `names[j] ↦ vals[j]` in order: a key that is none of the
names holds nothing. -/
theorem StatusMap_get_of_unassigned (names : List String) (vals : List Time) (key : String)
    (hkey : ∀ n ∈ names, n ≠ key) :
    StatusMap.get? (List.zip names vals).reverse key = none := by
  have : List.find? (fun kv => decide (kv.1 = key)) (List.zip names vals).reverse = none := by
    rw [List.find?_eq_none]
    intro kv hkv
    have hmem : kv.1 ∈ names := (List.of_mem_zip (a := kv.1) (b := kv.2) (by simpa using hkv)).1
    simpa using hkey kv.1 hmem
  simp [StatusMap.get?, this]

/-- C8: let `probeResults u tm.Trackers w.ext` be the outcomes of the probes' own `GetStatus(u)`,
each called in the state the one before left. `GetStatuses(u)` queries the probes in
registration order and fails fast. (1) If the probes before some position return the successes
`times` and the probe at that position returns an error `err`, the call returns the nil map
with that `err`; the trace then holds the calls up to that probe, in order, and nothing else,
and the external state is the one those calls left: no later probe is queried. (2) The same
with a probe that panics: the call panics with the probe's message. (3) If every probe returns
a success, the call returns without error a map in which the name of the probe at position `j`
holds the timestamp that probe returned (for a name registered more than once, the last probe
of that name), and in which no other name holds anything; all probes were called, in order. -/
theorem GetStatuses_fails_fast_else_maps_every_name {σ : Type} (tm : TrackerMaster σ)
    (u : String) (w : World σ) :
    (∀ (times : List Time) (t0 : Time) (err : GoError) (post : List ProbeOutcome),
      probeResults u tm.Trackers w.ext
        = times.map succeeded ++ ProbeOutcome.returned (t0, some err) :: post →
      (tm.GetStatuses u w).1 = StatusesOutcome.returned (none, some err) ∧
      (tm.GetStatuses u w).2.trace
        = w.trace ++ ((times.map succeeded ++ [ProbeOutcome.returned (t0, some err)]).enum).map
            (fun p => Event.probeStatus p.1 u p.2) ∧
      (tm.GetStatuses u w).2.ext = probeState u (tm.Trackers.take (times.length + 1)) w.ext) ∧
    (∀ (times : List Time) (msg : String) (post : List ProbeOutcome),
      probeResults u tm.Trackers w.ext = times.map succeeded ++ ProbeOutcome.panic msg :: post →
      (tm.GetStatuses u w).1 = StatusesOutcome.panic msg ∧
      (tm.GetStatuses u w).2.trace
        = w.trace ++ ((times.map succeeded ++ [ProbeOutcome.panic msg]).enum).map
            (fun p => Event.probeStatus p.1 u p.2) ∧
      (tm.GetStatuses u w).2.ext = probeState u (tm.Trackers.take (times.length + 1)) w.ext) ∧
    (∀ (times : List Time),
      probeResults u tm.Trackers w.ext = times.map succeeded →
      ∃ m : StatusMap,
        (tm.GetStatuses u w).1 = StatusesOutcome.returned (some m, none) ∧
        (tm.GetStatuses u w).2.trace
          = w.trace ++ ((times.map succeeded).enum).map (fun p => Event.probeStatus p.1 u p.2) ∧
        (tm.GetStatuses u w).2.ext = probeState u tm.Trackers w.ext ∧
        (∀ (j : Nat) (hj : j < tm.Trackers.length) (hv : j < times.length),
          (∀ k (hk : k < tm.Trackers.length), j < k →
            (tm.Trackers.get ⟨k, hk⟩).Name ≠ (tm.Trackers.get ⟨j, hj⟩).Name) →
          m.get? (tm.Trackers.get ⟨j, hj⟩).Name = some (times.get ⟨j, hv⟩)) ∧
        (∀ key, (∀ t ∈ tm.Trackers, t.Name ≠ key) → m.get? key = none)) := by
  refine ⟨?_, ?_, ?_⟩
  · intro times t0 err post h
    have := getStatusesFrom_stops u tm.Trackers 0 [] w times _ post h
      (by intro t; simp [succeeded])
    simpa [TrackerMaster.GetStatuses, List.enum, stoppedAt] using this
  · intro times msg post h
    have := getStatusesFrom_stops u tm.Trackers 0 [] w times _ post h
      (by intro t; simp [succeeded])
    simpa [TrackerMaster.GetStatuses, List.enum, stoppedAt] using this
  · intro times h
    obtain ⟨h1, h2, h3⟩ := getStatusesFrom_all u tm.Trackers 0 [] w times h
    refine ⟨_, by simpa [TrackerMaster.GetStatuses] using h1,
      by simpa [TrackerMaster.GetStatuses, List.enum] using h2,
      by simpa [TrackerMaster.GetStatuses] using h3, ?_, ?_⟩
    · intro j hj hv hlater
      have hjn : j < (tm.Trackers.map Tracker.Name).length := by simpa using hj
      have := StatusMap_get_of_assignments (tm.Trackers.map Tracker.Name) times j hjn hv (by
        intro k hk hjk
        have := hlater k (by simpa using hk) hjk
        simpa using this)
      simpa using this
    · intro key hkey
      exact StatusMap_get_of_unassigned (tm.Trackers.map Tracker.Name) times key (by
        intro n hn
        obtain ⟨t, ht, rfl⟩ := List.mem_map.mp hn
        exact hkey t ht)

/-- Witness of C8 on the demo registry. For `"bob"` the second probe returns an error: the
first two probes are called, the third is not, and the call returns the nil map with that
error. For `"ana"` every probe succeeds and the call returns a map. -/
theorem GetStatuses_fails_fast_else_maps_every_name_witness :
    (probeResults "bob" demoRegistry.Trackers demoWorld.ext
        = [105].map succeeded
            ++ ProbeOutcome.returned (0, some "Status not found") :: [succeeded 307] ∧
      (demoRegistry.GetStatuses "bob" demoWorld).1
        = StatusesOutcome.returned (none, some "Status not found") ∧
      (demoRegistry.GetStatuses "bob" demoWorld).2.trace
        = [Event.probeStatus 0 "bob" (succeeded 105),
           Event.probeStatus 1 "bob" (ProbeOutcome.returned (0, some "Status not found"))] ∧
      (demoRegistry.GetStatuses "bob" demoWorld).2.ext = 7) ∧
    (probeResults "ana" demoRegistry.Trackers demoWorld.ext = [105, 200, 307].map succeeded ∧
      ∃ m : StatusMap,
        (demoRegistry.GetStatuses "ana" demoWorld).1 = StatusesOutcome.returned (some m, none) ∧
        m.get? "signal" = some 307) :=
  ⟨⟨by decide,
    (GetStatuses_fails_fast_else_maps_every_name demoRegistry "bob" demoWorld).1
      [105] 0 "Status not found" [succeeded 307] (by decide)⟩,
   by decide,
   (fun ⟨m, hm, _, _, hget, _⟩ => ⟨m, hm, hget 2 (by decide) (by decide) (by
      intro k hk hlt
      have : k < 3 := hk
      omega)⟩)
     ((GetStatuses_fails_fast_else_maps_every_name demoRegistry "ana" demoWorld).2.2
       [105, 200, 307] (by decide))⟩

/-- On the demo registry the second probe fails for `"bob"`: the first two probes are queried,
the third is not, and the call returns the nil map with the second probe's error. -/
theorem GetStatuses_demo_failure :
    (demoRegistry.GetStatuses "bob" demoWorld).1
        = StatusesOutcome.returned (none, some "Status not found") ∧
    (demoRegistry.GetStatuses "bob" demoWorld).2.trace
        = [Event.probeStatus 0 "bob" (ProbeOutcome.returned (105, none)),
           Event.probeStatus 1 "bob" (ProbeOutcome.returned (0, some "Status not found"))] := by
  decide

/-- On the demo registry every probe succeeds for `"ana"`: all three are queried in order and
the map holds each probe's timestamp under its name. -/
theorem GetStatuses_demo_success :
    (demoRegistry.GetStatuses "ana" demoWorld).1
        = StatusesOutcome.returned
            (some [("signal", 307), ("telegram", 200), ("whatsapp", 105)], none) ∧
    (demoRegistry.GetStatuses "ana" demoWorld).2.trace
        = [Event.probeStatus 0 "ana" (ProbeOutcome.returned (105, none)),
           Event.probeStatus 1 "ana" (ProbeOutcome.returned (200, none)),
           Event.probeStatus 2 "ana" (ProbeOutcome.returned (307, none))] := by
  decide

/-! ## Polling loop: one pass over the watch-set -/

/-- Outcomes without a panic: there is no first panic and nothing is cut off. -/
theorem beforePanic_of_all_returned (outs : List ProbeOutcome)
    (h : ∀ o ∈ outs, ∃ r, o = ProbeOutcome.returned r) :
    firstPanic outs = none ∧ beforePanic outs = outs := by
  induction outs with
  | nil => exact ⟨rfl, rfl⟩
  | cons o rest ih =>
    obtain ⟨r, hr⟩ := h o (by simp)
    subst hr
    obtain ⟨h1, h2⟩ := ih (fun o ho => h o (by simp [ho]))
    exact ⟨by simpa [firstPanic] using h1, by simp [beforePanic, h2]⟩

/-- C4, evaluated on the code: when the people query fails, the loop goes straight to the next
iteration. Two iterations on a database whose query fails give two fetch attempts and no call
of `time.Sleep` at all, so nothing separates the two attempts; the loop does go on (it is not
stopped by the failure). On a database whose query succeeds the same two iterations sleep
after each fetch, for 1800 seconds. -/
theorem pollLoop_fetch_failure_retries_without_sleep :
    (brokenDaemon.pollLoop 2 demoWorld).world.trace
      = [Event.queryPeople (some "database is locked"),
         Event.logError "database is locked" "Failed to query tracked people",
         Event.queryPeople (some "database is locked"),
         Event.logError "database is locked" "Failed to query tracked people"] ∧
    fetchesAndSleeps (brokenDaemon.pollLoop 2 demoWorld).world.trace = [true, true] ∧
    (brokenDaemon.pollLoop 2 demoWorld).panic = none ∧
    fetchesAndSleeps (demoDaemon.pollLoop 2 demoWorld).world.trace = [true, false, true, false] ∧
    demoDaemon.sleepDuration = 1800 * 1000000000 := by
  decide

/-- While the people query keeps failing, no number of iterations ever reaches the sleep: the
trace grows by fetch attempts only. -/
theorem pollLoop_never_sleeps_while_fetch_fails {σ : Type} (d : Daemon σ) (err : GoError)
    (hrun : d.Running = true)
    (hfail : ∀ s, (d.TrackerMaster.DBConn.queryPeople s).1 = Except.error err) :
    ∀ (n : Nat) (w : World σ),
      fetchesAndSleeps (d.pollLoop n w).world.trace
        = fetchesAndSleeps w.trace ++ List.replicate n true := by
  have happ : ∀ a b : List Event,
      fetchesAndSleeps (a ++ b) = fetchesAndSleeps a ++ fetchesAndSleeps b := by
    intro a b
    induction a with
    | nil => rfl
    | cons e rest ih => cases e <;> simp [fetchesAndSleeps, ih]
  intro n
  induction n with
  | zero => intro w; simp [Daemon.pollLoop]
  | succ k ih =>
    intro w
    rcases hq : d.TrackerMaster.DBConn.queryPeople w.ext with ⟨r, s⟩
    have hr : r = Except.error err := by
      have := hfail w.ext
      rw [hq] at this
      exact this
    subst hr
    simp only [Daemon.pollLoop, hrun, if_true, TrackerMaster.QueryTrackedPeople, hq]
    rw [ih]
    simp [World.emit, happ, fetchesAndSleeps, List.replicate_succ]

/-- The demo daemon with the failing database meets the assumptions of the previous theorem. -/
theorem pollLoop_never_sleeps_while_fetch_fails_witness :
    fetchesAndSleeps (brokenDaemon.pollLoop 5 demoWorld).world.trace
      = fetchesAndSleeps demoWorld.trace ++ List.replicate 5 true :=
  pollLoop_never_sleeps_while_fetch_fails brokenDaemon "database is locked" rfl
    (fun _ => rfl) 5 demoWorld

/-! ## Reference probe: selection of the list item -/

/-- Items that do not carry the marker are passed over by the scan. -/
theorem scanElements_skip (pre rest : List Element) (best : Element)
    (hpre : ∀ x ∈ pre, carriesMarker x = false) :
    WhatsAppTracker.scanElements (pre ++ rest) best = WhatsAppTracker.scanElements rest best := by
  induction pre with
  | nil => rfl
  | cons p ps ih =>
    have hp : carriesMarker p = false := hpre p (by simp)
    have hps : ∀ x ∈ ps, carriesMarker x = false := fun x hx => hpre x (by simp [hx])
    simp only [List.cons_append, WhatsAppTracker.scanElements]
    cases hs : p.style with
    | none => simpa using ih hps
    | some st =>
      have : strings.Contains st "Y(72px)" = false := by simpa [carriesMarker, hs] using hp
      simpa [this] using ih hps

/-- The scan stops at an item that carries the marker. -/
theorem scanElements_hit (e : Element) (post : List Element) (best : Element)
    (he : carriesMarker e = true) :
    WhatsAppTracker.scanElements (e :: post) best = e := by
  cases hs : e.style with
  | none => simp [carriesMarker, hs] at he
  | some st =>
    have : strings.Contains st "Y(72px)" = true := by simpa [carriesMarker, hs] using he
    simp [WhatsAppTracker.scanElements, hs, this]

/-- C6: on a list of at least two items of which exactly one carries the first-slot marker
`Y(72px)` in its style, the selection returns that item, wherever it stands (`pre` and `post`
are the items before and after it); on a list of at least two items none of which carries the
marker (items without a style attribute included), it returns the first item; on a list of
exactly one item it fails with the error `"User list not found"`. -/
theorem selectElement_prefers_marker_else_first :
    (∀ (pre post : List Element) (e : Element),
        2 ≤ (pre ++ e :: post).length →
        carriesMarker e = true →
        (∀ x ∈ pre ++ post, carriesMarker x = false) →
        WhatsAppTracker.selectElement (pre ++ e :: post) = Selection.found e) ∧
    (∀ (first : Element) (rest : List Element),
        2 ≤ (first :: rest).length →
        (∀ x ∈ first :: rest, carriesMarker x = false) →
        WhatsAppTracker.selectElement (first :: rest) = Selection.found first) ∧
    (∀ e : Element, WhatsAppTracker.selectElement [e] = Selection.failed "User list not found") := by
  refine ⟨?_, ?_, ?_⟩
  · intro pre post e hlen he hothers
    have hpre : ∀ x ∈ pre, carriesMarker x = false :=
      fun x hx => hothers x (List.mem_append_left post hx)
    have hne : (pre ++ e :: post).length ≠ 1 := by omega
    have hscan : ∀ best, WhatsAppTracker.scanElements (pre ++ e :: post) best = e := by
      intro best
      rw [scanElements_skip pre (e :: post) best hpre]
      exact scanElements_hit e post best he
    unfold WhatsAppTracker.selectElement
    rw [if_neg hne]
    cases hl : pre ++ e :: post with
    | nil => simp at hl
    | cons first tail =>
      have := hscan first
      rw [hl] at this
      simp [this]
  · intro first rest hlen hnone
    have hne : (first :: rest).length ≠ 1 := by omega
    have := scanElements_skip (first :: rest) [] first hnone
    simp only [List.append_nil] at this
    unfold WhatsAppTracker.selectElement
    rw [if_neg hne]
    show Selection.found (WhatsAppTracker.scanElements (first :: rest) first) = _
    rw [this]
    rfl
  · intro e
    simp [WhatsAppTracker.selectElement]

/-- Witness of C6: the marked item stands last of three, behind an item without style and an
item with another offset; and a list of two unmarked items. -/
theorem selectElement_prefers_marker_else_first_witness :
    WhatsAppTracker.selectElement
        ([⟨0, none⟩, ⟨1, some "transform: translateY(144px);"⟩]
          ++ ⟨2, some "transform: translateY(72px);"⟩ :: [])
      = Selection.found ⟨2, some "transform: translateY(72px);"⟩ ∧
    WhatsAppTracker.selectElement [⟨0, none⟩, ⟨1, some "transform: translateY(144px);"⟩]
      = Selection.found ⟨0, none⟩ ∧
    WhatsAppTracker.selectElement [⟨0, none⟩] = Selection.failed "User list not found" :=
  ⟨selectElement_prefers_marker_else_first.1
      [⟨0, none⟩, ⟨1, some "transform: translateY(144px);"⟩] []
      ⟨2, some "transform: translateY(72px);"⟩ (by decide) (by decide) (by decide),
   selectElement_prefers_marker_else_first.2.1
      ⟨0, none⟩ [⟨1, some "transform: translateY(144px);"⟩] (by decide) (by decide),
   selectElement_prefers_marker_else_first.2.2 ⟨0, none⟩⟩

/-! ## Reference probe: classification of the status text -/

/-- C5, as it fails on the code: the text `online` holds none of the keywords the code looks
for, so it is not classified as active; the call fails with `"Status not found"`. -/
theorem classifyStatus_online_is_not_active :
    WhatsAppTracker.classifyStatus parseOnePhrase 1000 "online" ≠ (1000, none) ∧
    WhatsAppTracker.classifyStatus parseOnePhrase 1000 "online"
      = (zeroTime, some "Status not found") := by
  decide

/-- C5, amended: the activity keywords of the code are `conectat` and `scrie`. For every parser
and every anchor `now`, the texts `conectat` and `scrie...` are classified as active and give
`now` without error, and the text `online` gives the error `"Status not found"`. -/
theorem classifyStatus_activity_keywords (parse : String → Time → StatusResult) (now : Time) :
    WhatsAppTracker.classifyStatus parse now "conectat" = (now, none) ∧
    WhatsAppTracker.classifyStatus parse now "scrie..." = (now, none) ∧
    WhatsAppTracker.classifyStatus parse now "online" = (zeroTime, some "Status not found") := by
  have h1 : strings.Contains "conectat" "conectat" = true := by decide
  have h2 : strings.Contains "scrie..." "scrie" = true := by decide
  have h3 : strings.Contains "online" "conectat" = false := by decide
  have h4 : strings.Contains "online" "scrie" = false := by decide
  have h5 : strings.Contains "online" "ultima" = false := by decide
  simp [WhatsAppTracker.classifyStatus, h1, h2, h3, h4, h5]

/-- The classification of a last-seen text returns the pair of the parser unchanged. -/
theorem classifyStatus_last_seen (parse : String → Time → StatusResult) (now : Time)
    (title : String) (h1 : strings.Contains title "conectat" = false)
    (h2 : strings.Contains title "scrie" = false) (h3 : strings.Contains title "ultima" = true) :
    WhatsAppTracker.classifyStatus parse now title
      = parse (WhatsAppTracker.replacer.Replace title) now := by
  simp only [WhatsAppTracker.classifyStatus, h1, h2, h3, Bool.or_self, Bool.false_eq_true,
    if_false, if_true]
  rcases parse (WhatsAppTracker.replacer.Replace title) now with ⟨t, e⟩
  cases e <;> rfl

/-- C7: the classification is a function of the text, the anchor and the parser. The
substitution turns `ultima accesare: ieri la 3:00 p.m.` into `yesterday at 3:00pm`; the call
returns what the parser gives for that phrase against the anchor `T0`; so with a parser that
reads the phrase as the previous calendar day at 15:00, the call returns `T0` shifted to the
previous calendar day at 15:00, without error, for every `T0`. -/
theorem classifyStatus_yesterday_at_three_pm (parse : String → Time → StatusResult) (T0 : Time)
    (hparse : parse "yesterday at 3:00pm" T0 = (previousDayAt T0 15 0, none)) :
    WhatsAppTracker.replacer.Replace "ultima accesare: ieri la 3:00 p.m." = "yesterday at 3:00pm" ∧
    WhatsAppTracker.classifyStatus parse T0 "ultima accesare: ieri la 3:00 p.m."
      = parse "yesterday at 3:00pm" T0 ∧
    WhatsAppTracker.classifyStatus parse T0 "ultima accesare: ieri la 3:00 p.m."
      = (previousDayAt T0 15 0, none) := by
  have hrep : WhatsAppTracker.replacer.Replace "ultima accesare: ieri la 3:00 p.m."
      = "yesterday at 3:00pm" := by decide
  have hcls := classifyStatus_last_seen parse T0 "ultima accesare: ieri la 3:00 p.m."
    (by decide) (by decide) (by decide)
  rw [hrep] at hcls
  exact ⟨hrep, hcls, hcls.trans hparse⟩

/-- Witness of C7: with the one-phrase parser and the anchor `1000000` (day 11 after the zero
instant), the result is 15:00 of day 10. -/
theorem classifyStatus_yesterday_at_three_pm_witness :
    parseOnePhrase "yesterday at 3:00pm" 1000000 = (previousDayAt 1000000 15 0, none) ∧
    WhatsAppTracker.classifyStatus parseOnePhrase 1000000 "ultima accesare: ieri la 3:00 p.m."
      = (10 * 86400 + 15 * 3600, none) :=
  ⟨by decide,
   (classifyStatus_yesterday_at_three_pm parseOnePhrase 1000000 (by decide)).2.2⟩

/-- C9, evaluated on the code: the trimmed, lower-cased text is computed and dropped, and the
keywords are compared with the text as read. `Conectat` and `  SCRIE...  ` are not classified
as active and `Ultima accesare: azi la 10:00` is not classified as a last-seen phrase: all
three fail with `"Status not found"`, while their trimmed, lower-cased forms are classified as
active, active and last-seen. -/
theorem classifyStatus_compares_the_text_as_read (parse : String → Time → StatusResult)
    (now : Time) :
    WhatsAppTracker.classifyStatus parse now "Conectat" = (zeroTime, some "Status not found") ∧
    WhatsAppTracker.classifyStatus parse now (strings.ToLower (strings.Trim "Conectat" " \t\n\r"))
      = (now, none) ∧
    WhatsAppTracker.classifyStatus parse now "  SCRIE...  " = (zeroTime, some "Status not found") ∧
    WhatsAppTracker.classifyStatus parse now (strings.ToLower (strings.Trim "  SCRIE...  " " \t\n\r"))
      = (now, none) ∧
    WhatsAppTracker.classifyStatus parse now "Ultima accesare: azi la 10:00"
      = (zeroTime, some "Status not found") ∧
    WhatsAppTracker.classifyStatus parse now
        (strings.ToLower (strings.Trim "Ultima accesare: azi la 10:00" " \t\n\r"))
      = parse "today at 10:00" now := by
  have l1 : strings.ToLower (strings.Trim "Conectat" " \t\n\r") = "conectat" := by decide
  have l2 : strings.ToLower (strings.Trim "  SCRIE...  " " \t\n\r") = "scrie..." := by decide
  have l3 : strings.ToLower (strings.Trim "Ultima accesare: azi la 10:00" " \t\n\r")
      = "ultima accesare: azi la 10:00" := by decide
  have hrep : WhatsAppTracker.replacer.Replace "ultima accesare: azi la 10:00"
      = "today at 10:00" := by decide
  have hlast := classifyStatus_last_seen parse now "ultima accesare: azi la 10:00"
    (by decide) (by decide) (by decide)
  rw [hrep] at hlast
  have a1 : strings.Contains "Conectat" "conectat" = false := by decide
  have a2 : strings.Contains "Conectat" "scrie" = false := by decide
  have a3 : strings.Contains "Conectat" "ultima" = false := by decide
  have b1 : strings.Contains "  SCRIE...  " "conectat" = false := by decide
  have b2 : strings.Contains "  SCRIE...  " "scrie" = false := by decide
  have b3 : strings.Contains "  SCRIE...  " "ultima" = false := by decide
  have c1 : strings.Contains "Ultima accesare: azi la 10:00" "conectat" = false := by decide
  have c2 : strings.Contains "Ultima accesare: azi la 10:00" "scrie" = false := by decide
  have c3 : strings.Contains "Ultima accesare: azi la 10:00" "ultima" = false := by decide
  have d1 : strings.Contains "conectat" "conectat" = true := by decide
  have d2 : strings.Contains "scrie..." "scrie" = true := by decide
  rw [l1, l2, l3]
  refine ⟨?_, ?_, ?_, ?_, ?_, hlast⟩
  · simp [WhatsAppTracker.classifyStatus, a1, a2, a3]
  · simp [WhatsAppTracker.classifyStatus, d1]
  · simp [WhatsAppTracker.classifyStatus, b1, b2, b3]
  · simp [WhatsAppTracker.classifyStatus, d2]
  · simp [WhatsAppTracker.classifyStatus, c1, c2, c3]

/-! ## Reference probe: the substitution table -/

/-- C10, evaluated on the code: the old strings are compared in argument order and `marti`
stands before `martie`, so `martie` becomes `tuesdaye`, not `march`. The other seventeen day
and month names of the table become their English names. -/
theorem replacer_translates_martie_to_tuesdaye :
    WhatsAppTracker.replacer.Replace "martie" = "tuesdaye" ∧
    WhatsAppTracker.replacer.Replace "martie" ≠ "march" ∧
    ["luni", "marti", "miercuri", "joi", "vineri", "sambata", "duminica", "ianuarie",
      "februarie", "aprilie", "mai", "iunie", "iulie", "septembrie", "octombrie", "noiembrie",
      "decembrie"].map WhatsAppTracker.replacer.Replace
      = ["monday", "tuesday", "wednesday", "thursday", "friday", "saturday", "sunday", "january",
          "february", "april", "may", "june", "july", "september", "october", "november",
          "december"] := by
  decide

/-! ## Reference probe: safety of the selection -/

/-- The scan returns the start value or one of the items scanned. -/
theorem scanElements_mem (es : List Element) (best : Element) :
    WhatsAppTracker.scanElements es best = best ∨ WhatsAppTracker.scanElements es best ∈ es := by
  induction es with
  | nil => exact Or.inl rfl
  | cons e rest ih =>
    simp only [WhatsAppTracker.scanElements]
    cases hs : e.style with
    | none =>
      rcases ih with h | h
      · exact Or.inl h
      · exact Or.inr (List.mem_cons_of_mem e h)
    | some st =>
      by_cases hc : strings.Contains st "Y(72px)" = true
      · simp [hc]
      · simp only [hc, if_false, Bool.false_eq_true]
        rcases ih with h | h
        · exact Or.inl h
        · exact Or.inr (List.mem_cons_of_mem e h)

/-- On every non-empty list the selection either returns an item of the list or fails with the
error `"User list not found"`; it does not panic. -/
theorem selectElement_nonempty_is_safe (es : List Element) (hne : es ≠ []) :
    (∃ e, e ∈ es ∧ WhatsAppTracker.selectElement es = Selection.found e) ∨
    WhatsAppTracker.selectElement es = Selection.failed "User list not found" := by
  cases es with
  | nil => exact absurd rfl hne
  | cons first rest =>
    by_cases h1 : (first :: rest).length = 1
    · exact Or.inr (by simp only [WhatsAppTracker.selectElement, h1, if_true])
    · refine Or.inl ⟨WhatsAppTracker.scanElements (first :: rest) first, ?_, ?_⟩
      · rcases scanElements_mem (first :: rest) first with h | h
        · rw [h]; exact List.mem_cons_self first rest
        · exact h
      · simp only [WhatsAppTracker.selectElement, h1, if_false]

/-- The previous theorem on a list of two items, the second of which carries the marker. -/
theorem selectElement_nonempty_is_safe_witness :
    (∃ e, e ∈ [(⟨0, none⟩ : Element), ⟨1, some "transform: translateY(72px);"⟩] ∧
      WhatsAppTracker.selectElement [⟨0, none⟩, ⟨1, some "transform: translateY(72px);"⟩]
        = Selection.found e) ∨
    WhatsAppTracker.selectElement [⟨0, none⟩, ⟨1, some "transform: translateY(72px);"⟩]
      = Selection.failed "User list not found" :=
  selectElement_nonempty_is_safe [⟨0, none⟩, ⟨1, some "transform: translateY(72px);"⟩]
    (by decide)

/-- C11, evaluated on the code: the guard before `elements[0]` tests `len(elements) == 1` only,
so on the empty list the selection reads `elements[0]` out of range and panics; it neither
returns an item nor fails with the error `"User list not found"`. The whole call panics with
it, for every page that shows no list item for the user. -/
theorem selectElement_empty_list_panics :
    WhatsAppTracker.selectElement []
      = Selection.panic "runtime error: index out of range [0] with length 0" ∧
    WhatsAppTracker.selectElement [] ≠ Selection.failed "User list not found" ∧
    (∀ e, WhatsAppTracker.selectElement [] ≠ Selection.found e) ∧
    (∀ (page : Page) (parse : String → Time → StatusResult) (now : Time) (user : String),
      page.elements user = [] →
      WhatsAppTracker.GetStatus page parse now user
        = ProbeOutcome.panic "runtime error: index out of range [0] with length 0") := by
  refine ⟨by decide, by decide, fun e => by simp [WhatsAppTracker.selectElement], ?_⟩
  intro page parse now user hempty
  simp [WhatsAppTracker.GetStatus, hempty, WhatsAppTracker.selectElement]

/-- Witness of C11 on the page without list items: the call for the user `ana` panics. -/
theorem selectElement_empty_list_panics_witness :
    emptyPage.elements "ana" = [] ∧
    WhatsAppTracker.GetStatus emptyPage parseOnePhrase 1000 "ana"
      = ProbeOutcome.panic "runtime error: index out of range [0] with length 0" :=
  ⟨rfl, selectElement_empty_list_panics.2.2.2 emptyPage parseOnePhrase 1000 "ana" rfl⟩

end Veghetor
